import Mathlib

/-!
Verification development for the ImpleForge worker core.

This file gives a shallow embedding, in Lean 4, of the worker subsystem of the
repository: the process execution worker (`src/core/executor.py`,
`CommandWorker`), the data-transfer worker (`src/core/workers/datapump_worker.py`,
`DataPumpWorker`), the database operation worker
(`src/core/workers/db_ops_worker.py`, `DBOpsWorker`) and the SQL worker
(`src/core/workers/sql_worker.py`, `SQLWorker`).

Modelling conventions:
* Python strings are modelled as `List Char` (`Str`); `len`, slicing, `+` map
  to `List.length`, `List.take`/`List.drop`, `++`.
* Signal emissions are modelled as events in a trace (a `List` of events); a
  worker's `run` method becomes a total function from the observable behaviour
  of the environment (the child process / database backend, given as an
  explicit outcome datatype) to the trace it emits.  Every `except` clause of
  the source corresponds to a match arm on a raising outcome, so totality of
  the Lean function mirrors "no exception escapes the worker".
* Network attempts (SQLAlchemy engine creation + `connect`, MongoClient use)
  are made observable as a dedicated `netConnect` trace event, emitted exactly
  where the source performs them.
* Connection profiles are records whose fields model the values stored under
  the corresponding dictionary keys.
-/

set_option maxRecDepth 8000

/-- Python strings, modelled as lists of characters. -/
abbrev Str := List Char

/-- Embed a Lean string literal as a `Str`. -/
def S (s : String) : Str := s.data

/-- Python `str.rstrip('\r\n')`: remove trailing carriage returns / newlines. -/
def rstripCRLF (s : Str) : Str :=
  (s.reverse.dropWhile (fun c => c == '\r' || c == '\n')).reverse

/-- The whitespace characters recognised by Python's `str.strip()` (ASCII part). -/
def isPyWs (c : Char) : Bool :=
  c == ' ' || c == '\t' || c == '\n' || c == '\r' || c == '\x0b' || c == '\x0c'

/-- Python `str.strip()`: remove leading and trailing whitespace. -/
def stripPy (s : Str) : Str :=
  ((s.dropWhile isPyWs).reverse.dropWhile isPyWs).reverse

/-- Python `str.lower()` (ASCII case folding, which is what the profiles use). -/
def toLowerStr (s : Str) : Str := s.map Char.toLower

/-- Python `str.upper()` (ASCII case folding). -/
def toUpperStr (s : Str) : Str := s.map Char.toUpper

/-- Python `str(n)` for a non-negative integer. -/
def natStr (n : Nat) : Str := (toString n).data

/-- Python `str(i)` for an integer. -/
def intStr (i : Int) : Str := (toString i).data

/-- Python `pat in s` (substring containment). -/
def occursIn (pat s : Str) : Bool := decide (pat <:+: s)

/-- Python `s.startswith(pat)`. -/
def startsWithStr (pat s : Str) : Bool := decide (pat <+: s)

/-- Python `" ".join(parts)`. -/
def joinSp : List Str → Str
  | [] => []
  | [s] => s
  | s :: t :: rest => s ++ S " " ++ joinSp (t :: rest)

/-- Python `str.replace(pat, repl)` for a non-empty `pat`: replace all
non-overlapping occurrences, scanning left to right. -/
def replaceAll (pat repl : Str) : Str → Str
  | [] => []
  | c :: rest =>
    if h : pat ≠ [] ∧ pat <+: (c :: rest) then
      repl ++ replaceAll pat repl ((c :: rest).drop pat.length)
    else
      c :: replaceAll pat repl rest
termination_by s => s.length
decreasing_by
  · have hp : 1 ≤ pat.length := by
      cases hpat : pat with
      | nil => exact absurd hpat h.1
      | cons a as => simp
    simp only [List.length_drop, List.length_cons]
    omega
  · simp

/-! ## Database operation worker (`src/core/workers/db_ops_worker.py`) -/

/-- A database connection profile (`db_profile` dictionary): the values stored
under the keys read by the workers. -/
structure DBProfile where
  db_type : Str
  host : Str
  port : Nat
  username : Str
  password : Str
  database : Str
deriving DecidableEq

/-- One hex digit, upper case, as produced by `urllib.parse.quote`. -/
def hexDigit (n : Nat) : Char :=
  if n < 10 then Char.ofNat (48 + n) else Char.ofNat (55 + n)

/-- UTF-8 encoding of one character, as a list of byte values. -/
def utf8Bytes (c : Char) : List Nat :=
  let n := c.toNat
  if n < 0x80 then [n]
  else if n < 0x800 then
    [0xC0 + n / 64, 0x80 + n % 64]
  else if n < 0x10000 then
    [0xE0 + n / 4096, 0x80 + n / 64 % 64, 0x80 + n % 64]
  else
    [0xF0 + n / 262144, 0x80 + n / 4096 % 64, 0x80 + n / 64 % 64, 0x80 + n % 64]

/-- Percent-encode a single byte. -/
def quoteByte (b : Nat) : Str := ['%', hexDigit (b / 16), hexDigit (b % 16)]

/-- `urllib.parse.quote_plus` on one character. -/
def quotePlusChar (c : Char) : Str :=
  if c == ' ' then ['+']
  else if c.isAlphanum || c == '_' || c == '.' || c == '-' || c == '~' then [c]
  else ((utf8Bytes c).map quoteByte).flatten

/-- `urllib.parse.quote_plus`. -/
def quotePlus (s : Str) : Str := (s.map quotePlusChar).flatten

/-- `DBOpsWorker._build_connection_string`: a pure function of the profile;
returns `none` for an unsupported family. -/
def DBOpsWorker.buildConnectionString (p : DBProfile) : Option Str :=
  let db_type := toLowerStr p.db_type
  let su := quotePlus p.username
  let sp := quotePlus p.password
  if db_type = S "mysql" ∨ db_type = S "mariadb" then
    some (S "mysql+pymysql://" ++ su ++ S ":" ++ sp ++ S "@" ++ p.host ++ S ":" ++
      natStr p.port ++ (if p.database ≠ [] then S "/" ++ p.database else []))
  else if db_type = S "oracle" then
    some (S "oracle+oracledb://" ++ su ++ S ":" ++ sp ++ S "@" ++ p.host ++ S ":" ++
      natStr p.port ++ S "/?service_name=" ++
      (if p.database ≠ [] then p.database else S "ORCL"))
  else if db_type = S "sqlserver" then
    some (S "mssql+pymssql://" ++ su ++ S ":" ++ sp ++ S "@" ++ p.host ++ S ":" ++
      natStr p.port ++ (if p.database ≠ [] then S "/" ++ p.database else []))
  else
    none

/-- Cell truncation in `DBOpsWorker._execute_sql` (table shape): a cell whose
string rendering exceeds 1000 characters is cut to its first 997 characters
plus `"..."`. -/
def DBOpsWorker.truncCell (s : Str) : Str :=
  if 1000 < s.length then s.take 997 ++ S "..." else s

/-- Rendering of one table cell: `None` becomes the empty string, other values
are rendered via `str()` (modelled by the `Str` payload) and truncated. -/
def DBOpsWorker.renderTableCell (v : Option Str) : Str :=
  match v with
  | none => []
  | some s => DBOpsWorker.truncCell s

/-- Table-shape rendering of a row set. -/
def DBOpsWorker.renderTableRows (rows : List (List (Option Str))) : List (List Str) :=
  rows.map (fun row => row.map DBOpsWorker.renderTableCell)

/-- Text-shape rendering of one row in `DBOpsWorker._execute_sql`: a
single-column row renders its value (`None` as empty), a multi-column row joins
the columns with `" | "`, rendering `None` as the literal `"NULL"`. -/
def DBOpsWorker.renderTextRow (row : List (Option Str)) : Str :=
  match row with
  | [v] =>
    match v with
    | none => []
    | some s => s
  | _ =>
    List.intercalate (S " | ")
      (row.map (fun c => match c with | none => S "NULL" | some s => s))

/-- Text-shape rendering of a row set: rows joined with newlines; an empty row
set renders the fixed no-data marker. -/
def DBOpsWorker.renderTextResult (rows : List (List (Option Str))) : Str :=
  if rows = [] then S "(无数据)"
  else List.intercalate (S "\n") (rows.map DBOpsWorker.renderTextRow)

/-- A `DBOpsWorker` instance (constructor arguments stored on `self`). -/
structure DBOpsWorker where
  profile : DBProfile
  operation : Str
  sql_text : Str
  result_type : Str
  timeout : Nat
deriving DecidableEq

/-- Normalized result payloads (the `content` argument of `result_signal`). -/
inductive Payload where
  | table (rows : List (List Str))
  | text (s : Str)
  | doc (s : Str)
deriving DecidableEq

/-- Observable events of the database operation worker: network attempts and
the three signals. -/
inductive DBEvent where
  | netConnect (target : Str)
  | resultSig (status : Str) (dataType : Str) (content : Payload)
  | errorSig (msg : Str) (sql : Str)
  | finished
deriving DecidableEq

/-- Behaviour of the relational backend once a connection is attempted:
an exception (carrying `str(e)`), a statement without result set (with its
rowcount), or a cursor with column names and rows (`none` cells are SQL NULL). -/
inductive SqlNet where
  | raises (e : Str)
  | noCursor (rowcount : Int)
  | cursor (cols : List Str) (rows : List (List (Option Str)))

/-- Behaviour of the MongoDB backend: a command-parse failure (before any
network use), an exception from the command, or a serialized response. -/
inductive MongoNet where
  | badJson (e : Str)
  | raises (e : Str)
  | ok (doc : Str)

/-- `DBOpsWorker._execute_sql`, as the pair of the events it emits (the network
attempt) and its outcome: either a payload or the exception it raises.  The
`ValueError` for an unsupported family is raised before the engine is created,
so no `netConnect` event is produced in that case. -/
def DBOpsWorker.executeSql (w : DBOpsWorker) (net : SqlNet) :
    List DBEvent × Except Str Payload :=
  match DBOpsWorker.buildConnectionString w.profile with
  | none => ([], Except.error (S "不支持的数据库类型: " ++ w.profile.db_type))
  | some cs =>
    match net with
    | .raises e => ([DBEvent.netConnect cs], Except.error e)
    | .noCursor rc =>
      ([DBEvent.netConnect cs],
        Except.ok (Payload.text (S "执行成功，影响 " ++ intStr rc ++ S " 行")))
    | .cursor _cols rows =>
      if w.result_type = S "text" then
        ([DBEvent.netConnect cs], Except.ok (Payload.text (DBOpsWorker.renderTextResult rows)))
      else
        ([DBEvent.netConnect cs], Except.ok (Payload.table (DBOpsWorker.renderTableRows rows)))

/-- The MongoDB connection URI built by `DBOpsWorker._execute_mongodb`. -/
def DBOpsWorker.mongoUri (p : DBProfile) : Str :=
  if p.username ≠ [] ∧ p.password ≠ [] then
    S "mongodb://" ++ p.username ++ S ":" ++ p.password ++ S "@" ++ p.host ++ S ":" ++
      natStr p.port ++ S "/" ++ p.database
  else
    S "mongodb://" ++ p.host ++ S ":" ++ natStr p.port ++ S "/" ++ p.database

/-- `DBOpsWorker._execute_mongodb`: events plus outcome. -/
def DBOpsWorker.executeMongo (w : DBOpsWorker) (net : MongoNet) :
    List DBEvent × Except Str Payload :=
  match net with
  | .badJson e => ([], Except.error e)
  | .raises e => ([DBEvent.netConnect (DBOpsWorker.mongoUri w.profile)], Except.error e)
  | .ok doc => ([DBEvent.netConnect (DBOpsWorker.mongoUri w.profile)], Except.ok (Payload.doc doc))

/-- `DBOpsWorker._parse_error`: classify a diagnostic by matching lowered text
and family-specific codes, in source order. -/
def DBOpsWorker.parseError (timeout : Nat) (err : Str) (db_type : Str) : Str :=
  let error_str := toLowerStr err
  let original := err
  if occursIn (S "timeout") error_str then
    S "连接超时（" ++ natStr timeout ++ S "秒），请检查网络或增加超时时间"
  else if occursIn (S "access denied") error_str || occursIn (S "login failed") error_str then
    S "认证失败：用户名或密码错误"
  else if occursIn (S "unknown host") error_str || occursIn (S "could not connect") error_str then
    S "无法连接到数据库服务器，请检查主机地址和端口"
  else if occursIn (S "unknown database") error_str ||
      occursIn (S "database does not exist") error_str then
    S "数据库不存在，请检查数据库名称"
  else if db_type = S "oracle" ∧ occursIn (S "ora-00942") error_str then
    S "表或视图不存在，或当前用户无权限访问"
  else if db_type = S "oracle" ∧ occursIn (S "ora-01031") error_str then
    S "权限不足，需要 DBA 权限才能执行此操作"
  else if db_type = S "oracle" ∧ occursIn (S "ora-01555") error_str then
    S "快照过旧，查询时间太长或 UNDO 表空间不足"
  else if db_type = S "oracle" ∧ occursIn (S "ora-00054") error_str then
    S "资源正忙，对象被其他会话锁定"
  else if (db_type = S "mysql" ∨ db_type = S "mariadb") ∧ occursIn (S "syntax") error_str then
    S "SQL 语法错误：\n" ++ original.take 200
  else if (db_type = S "mysql" ∨ db_type = S "mariadb") ∧
      occursIn (S "performance_schema") error_str then
    S "Performance Schema 未启用，某些查询无法执行"
  else if db_type = S "sqlserver" ∧ occursIn (S "invalid object name") error_str then
    S "对象不存在，请检查表名或视图名"
  else
    S "执行错误：\n" ++
      (if 500 < original.length then original.take 497 ++ S "..." else original)

/-- `DBOpsWorker.run`: dispatch on the family, catch every exception of the
body, emit the result or classified error only while still running, and emit
`finished` unconditionally from the `finally` block.  `stopped` models a
concurrent `stop()` having cleared `_is_running` before the emission check. -/
def DBOpsWorker.run (w : DBOpsWorker) (sqlNet : SqlNet) (mongoNet : MongoNet)
    (stopped : Bool) : List DBEvent :=
  let body :=
    if toLowerStr w.profile.db_type = S "mongodb" then
      DBOpsWorker.executeMongo w mongoNet
    else
      DBOpsWorker.executeSql w sqlNet
  match body with
  | (tr, Except.ok payload) =>
    tr ++ (if stopped then [] else
      [DBEvent.resultSig (S "success") w.result_type payload]) ++ [DBEvent.finished]
  | (tr, Except.error e) =>
    tr ++ (if stopped then [] else
      [DBEvent.errorSig (DBOpsWorker.parseError w.timeout e w.profile.db_type) w.sql_text])
      ++ [DBEvent.finished]

/-! ## SQL worker (`src/core/workers/sql_worker.py`) -/

/-- Observable events of the SQL worker: the four signals plus the network
attempt, the transaction commit and the connection close. -/
inductive SQLEvent where
  | netConnect (target : Str)
  | selectResult (headers : List Str) (rows : List (List Str))
  | executeResult (rowcount : Int) (msg : Str)
  | errorSig (msg : Str)
  | commit
  | close
  | finished
deriving DecidableEq

/-- Backend behaviour for one SQL worker run: the connect attempt fails, the
statement raises, or it yields headers/rows/rowcount after which the commit may
itself raise (`SQLAlchemyError` carrying `str(e)`).  `sqla` distinguishes
`SQLAlchemyError` from other exceptions. -/
inductive SQLNet where
  | connectRaises (e : Str) (sqla : Bool)
  | execRaises (e : Str) (sqla : Bool)
  | ok (headers : List Str) (rows : List (List (Option Str))) (rowcount : Int)
      (commitErr : Option Str)

/-- `SQLWorker._build_connection_string`. -/
def SQLWorker.buildConnectionString (p : DBProfile) : Option Str :=
  let db_type := toLowerStr p.db_type
  let su := quotePlus p.username
  let sp := quotePlus p.password
  if db_type = S "mysql" then
    some (S "mysql+pymysql://" ++ su ++ S ":" ++ sp ++ S "@" ++ p.host ++ S ":" ++
      natStr p.port ++ (if p.database ≠ [] then S "/" ++ p.database else []))
  else if db_type = S "postgresql" then
    some (S "postgresql+psycopg2://" ++ su ++ S ":" ++ sp ++ S "@" ++ p.host ++ S ":" ++
      natStr p.port ++ (if p.database ≠ [] then S "/" ++ p.database else []))
  else if db_type = S "sqlite" then
    some (if p.database ≠ [] then S "sqlite:///" ++ p.database else S "sqlite:///:memory:")
  else if db_type = S "mssql" then
    some (S "mssql+pyodbc://" ++ su ++ S ":" ++ sp ++ S "@" ++ p.host ++ S ":" ++
      natStr p.port ++
      (if p.database ≠ [] then S "/" ++ p.database else []) ++
      S "?driver=ODBC+Driver+17+for+SQL+Server")
  else if db_type = S "oracle" then
    some (S "oracle+cx_oracle://" ++ su ++ S ":" ++ sp ++ S "@" ++ p.host ++ S ":" ++
      natStr p.port ++ S "/?service_name=" ++
      (if p.database ≠ [] then p.database else S "ORCL"))
  else
    none

/-- The statement-routing predicate of `SQLWorker.run`: the upper-cased text
starts with one of the query keywords. -/
def SQLWorker.isSelect (sql : Str) : Bool :=
  let u := toUpperStr sql
  startsWithStr (S "SELECT") u || startsWithStr (S "SHOW") u ||
    startsWithStr (S "DESCRIBE") u || startsWithStr (S "DESC") u ||
    startsWithStr (S "EXPLAIN") u

/-- Cell rendering in `SQLWorker._handle_select_result`: `None` as empty
string, long values truncated to 997 characters plus `"..."`. -/
def SQLWorker.renderCell (v : Option Str) : Str :=
  match v with
  | none => []
  | some s => if 1000 < s.length then s.take 997 ++ S "..." else s

/-- Row-set rendering in `SQLWorker._handle_select_result`. -/
def SQLWorker.renderRows (rows : List (List (Option Str))) : List (List Str) :=
  rows.map (fun row => row.map SQLWorker.renderCell)

/-- The message built by `SQLWorker._handle_execute_result`. -/
def SQLWorker.executeMessage (sql : Str) (rowcount : Int) : Str :=
  let u := toUpperStr sql
  let action :=
    if startsWithStr (S "INSERT") u then S "插入"
    else if startsWithStr (S "UPDATE") u then S "更新"
    else if startsWithStr (S "DELETE") u then S "删除"
    else if startsWithStr (S "CREATE") u then S "创建"
    else if startsWithStr (S "DROP") u then S "删除"
    else if startsWithStr (S "ALTER") u then S "修改"
    else S "执行"
  if 0 ≤ rowcount then action ++ S "成功，影响 " ++ intStr rowcount ++ S " 行"
  else action ++ S "成功"

/-- `SQLWorker._parse_error`. -/
def SQLWorker.parseError (err : Str) : Str :=
  let error_str := toLowerStr err
  let original := err
  if occursIn (S "access denied") error_str || occursIn (S "1045") error_str then
    S "数据库认证失败：用户名或密码错误"
  else if occursIn (S "unknown database") error_str || occursIn (S "1049") error_str then
    S "数据库不存在：请检查数据库名称"
  else if occursIn (S "can't connect") error_str || occursIn (S "2003") error_str then
    S "无法连接到数据库服务器：请检查网络和端口"
  else if occursIn (S "table") error_str ∧
      (occursIn (S "doesn't exist") error_str ∨ occursIn (S "does not exist") error_str) then
    S "表不存在：请检查表名是否正确"
  else if occursIn (S "column") error_str ∧ occursIn (S "unknown") error_str then
    S "列不存在：请检查列名是否正确"
  else if occursIn (S "syntax") error_str then
    S "SQL 语法错误：\n" ++ original.take 200
  else if occursIn (S "timeout") error_str then
    S "连接超时：请检查网络状况"
  else if occursIn (S "permission") error_str || occursIn (S "denied") error_str then
    S "权限不足：当前用户无法执行此操作"
  else
    S "SQL 执行错误：\n" ++ original.take 300

/-- `SQLWorker.run` on the profile and the raw statement text (stripped at
construction).  Every failure of the body is converted into an `errorSig`, the
trailing `finished` comes from the `finally` block on every path, including the
early `return` for an unsupported family. -/
def SQLWorker.run (profile : DBProfile) (sqlRaw : Str) (net : SQLNet) : List SQLEvent :=
  let sql := stripPy sqlRaw
  (match SQLWorker.buildConnectionString profile with
   | none => [SQLEvent.errorSig (S "不支持的数据库类型")]
   | some cs =>
     match net with
     | .connectRaises e sqla =>
       [SQLEvent.netConnect cs,
        SQLEvent.errorSig (if sqla then SQLWorker.parseError e else S "执行异常: " ++ e)]
     | .execRaises e sqla =>
       [SQLEvent.netConnect cs, SQLEvent.close,
        SQLEvent.errorSig (if sqla then SQLWorker.parseError e else S "执行异常: " ++ e)]
     | .ok headers rows rc commitErr =>
       let routed :=
         if SQLWorker.isSelect sql then
           SQLEvent.selectResult headers (SQLWorker.renderRows rows)
         else
           SQLEvent.executeResult rc (SQLWorker.executeMessage sql rc)
       match commitErr with
       | none => [SQLEvent.netConnect cs, routed, SQLEvent.commit, SQLEvent.close]
       | some e =>
         [SQLEvent.netConnect cs, routed, SQLEvent.close,
          SQLEvent.errorSig (SQLWorker.parseError e)])
  ++ [SQLEvent.finished]

/-! ## Process execution worker (`src/core/executor.py`) -/

/-- One iteration of the output poll loop: the `_is_running` flag and process
liveness (`poll() is None`) observed at the loop head, and the (already
decoded) line returned by `readline()` (`[]` models an empty read). -/
structure LoopStep where
  isRunning : Bool
  procAlive : Bool
  line : Str
deriving DecidableEq

/-- Observable events of `CommandWorker`: its three signals. -/
inductive CmdEvent where
  | output (s : Str)
  | errorSig (msg : Str)
  | finished (code : Int)
deriving DecidableEq

/-- True exactly on terminal (`finished`) events. -/
def isCmdFinished : CmdEvent → Bool
  | CmdEvent.finished _ => true
  | _ => false

/-- True exactly on error events. -/
def isCmdError : CmdEvent → Bool
  | CmdEvent.errorSig _ => true
  | _ => false

/-- Line handling of the poll loop in `CommandWorker.run`: skip empty reads,
right-trim `"\r\n"`, suppress lines that became empty. -/
def CommandWorker.pollEmit (line : Str) : Option Str :=
  if line = [] then none
  else
    let d := rstripCRLF line
    if d = [] then none else some d

/-- The progress lines produced by the poll loop: consume steps while the
running flag is set and the child is alive. -/
def CommandWorker.pollOutputs : List LoopStep → List Str
  | [] => []
  | st :: rest =>
    if st.isRunning && st.procAlive then
      (match CommandWorker.pollEmit st.line with
       | some l => [l]
       | none => []) ++ CommandWorker.pollOutputs rest
    else []

/-- The post-exit drain of `CommandWorker.run`: strip the remaining decoded
output, split on newlines, keep lines with non-whitespace content, each
right-trimmed of `"\r\n"`. -/
def CommandWorker.drainOutputs (remaining : Str) : List Str :=
  if remaining = [] then []
  else
    ((stripPy remaining).splitOn '\n').filterMap
      (fun l => if stripPy l ≠ [] then some (rstripCRLF l) else none)

/-- Outcome of spawning the child process: a normal run (with its poll
schedule, remaining buffered output and return code), or one of the exceptions
caught by `CommandWorker.run`. -/
inductive SpawnOutcome where
  | ok (steps : List LoopStep) (remaining : Str) (returncode : Int)
  | fileNotFound (e : Str)
  | permissionErr (e : Str)
  | otherExn (e : Str)

/-- `CommandWorker.run`: stream trimmed non-empty lines, drain, then emit the
exit code; each caught exception yields one error event plus the `-1`
sentinel. -/
def CommandWorker.run : SpawnOutcome → List CmdEvent
  | .ok steps remaining rc =>
    (CommandWorker.pollOutputs steps).map CmdEvent.output
      ++ (CommandWorker.drainOutputs remaining).map CmdEvent.output
      ++ [CmdEvent.finished rc]
  | .fileNotFound e =>
    [CmdEvent.errorSig (S "[错误] 命令未找到: " ++ e), CmdEvent.finished (-1)]
  | .permissionErr e =>
    [CmdEvent.errorSig (S "[错误] 权限不足: " ++ e), CmdEvent.finished (-1)]
  | .otherExn e =>
    [CmdEvent.errorSig (S "[错误] 执行异常: " ++ e), CmdEvent.finished (-1)]

/-- Outcome of the `terminate()` call issued by `CommandWorker.stop`: it
returns normally or raises an exception (carrying `str(e)`). -/
inductive TermOutcome where
  | ok
  | raises (e : Str)
deriving DecidableEq

/-- Outcome of the `wait(timeout=2)` call: the child exits within the grace
period, the wait raises `TimeoutExpired` on expiry, or it raises some other
exception. -/
inductive WaitOutcome where
  | exits
  | timesOut
  | raises (e : Str)
deriving DecidableEq

/-- Outcome of the `kill()` call issued on grace expiry. -/
inductive KillOutcome where
  | ok
  | raises (e : Str)
deriving DecidableEq

/-- The OS calls `CommandWorker.stop` can issue on the process handle. -/
inductive StopAction where
  | terminate
  | waitGrace
  | kill
deriving DecidableEq

/-- `CommandWorker.stop` on the process handle: the list of OS calls it issues
and the exception escaping `stop()`, if any.  With a live child it calls
`terminate()` then `wait(timeout=2)`; `TimeoutExpired` is answered by
`kill()`; any other exception from `terminate`/`wait` is swallowed by the
`except Exception: pass` arm, after which no further call is made (so the
child is not confirmed dead on that path); an exception raised by `kill()`
itself occurs inside the `TimeoutExpired` handler and propagates out of
`stop()`. -/
def CommandWorker.stopModel (procAlive : Bool) (term : TermOutcome)
    (wait : WaitOutcome) (k : KillOutcome) : List StopAction × Option Str :=
  if procAlive then
    match term with
    | .raises _ => ([StopAction.terminate], none)
    | .ok =>
      match wait with
      | .exits => ([StopAction.terminate, StopAction.waitGrace], none)
      | .timesOut =>
        match k with
        | .ok => ([StopAction.terminate, StopAction.waitGrace, StopAction.kill], none)
        | .raises e =>
          ([StopAction.terminate, StopAction.waitGrace, StopAction.kill], some e)
      | .raises _ => ([StopAction.terminate, StopAction.waitGrace], none)
  else ([], none)

/-! ## Data-transfer worker (`src/core/workers/datapump_worker.py`) -/

/-- The two operation modes accepted by the `DataPumpWorker` constructor; any
other value is rejected with `ValueError` at construction. -/
inductive DPOp where
  | expdp
  | impdp
deriving DecidableEq

/-- The executable name of an operation mode. -/
def DPOp.name : DPOp → Str
  | .expdp => S "expdp"
  | .impdp => S "impdp"

/-- The `db_config` dictionary plus constructor arguments of `DataPumpWorker`.
`service_name`/`database` are `Option` because the source reads them with
`dict.get` and falls back through Python truthiness. -/
structure DPConfig where
  username : Str
  password : Str
  host : Str
  port : Nat
  service_name : Option Str
  database : Option Str
  dmp_filename : Str
  directory_name : Str
  additional_params : List Str
deriving DecidableEq

/-- Replace the password of a configuration (used to state hyperproperties). -/
def DPConfig.setPwd (c : DPConfig) (p : Str) : DPConfig :=
  ⟨c.username, p, c.host, c.port, c.service_name, c.database,
   c.dmp_filename, c.directory_name, c.additional_params⟩

/-- `db_config.get("service_name") or db_config.get("database", "ORCL")`. -/
def DataPumpWorker.serviceOf (cfg : DPConfig) : Str :=
  let a := cfg.service_name.getD []
  if a ≠ [] then a else cfg.database.getD (S "ORCL")

/-- The Easy Connect string `user/password@//host:port/service_name`. -/
def DataPumpWorker.connStr (cfg : DPConfig) : Str :=
  cfg.username ++ S "/" ++ cfg.password ++ S "@" ++ S "//" ++ cfg.host ++ S ":" ++
    natStr cfg.port ++ S "/" ++ DataPumpWorker.serviceOf cfg

/-- `DataPumpWorker._build_command`: fixed parts, then the default flags added
only when the corresponding substring does not occur in the space-joined
caller parameters, then the caller parameters. -/
def DataPumpWorker.buildCommand (op : DPOp) (cfg : DPConfig) : List Str :=
  let conn := DataPumpWorker.connStr cfg
  let joined := joinSp cfg.additional_params
  let base : List Str :=
    match op with
    | .expdp =>
      let cmd := [S "expdp", conn,
        S "directory=" ++ cfg.directory_name,
        S "dumpfile=" ++ cfg.dmp_filename,
        S "logfile=" ++ cfg.dmp_filename ++ S ".log"]
      if occursIn (S "full") joined then cmd else cmd ++ [S "full=y"]
    | .impdp =>
      let cmd := [S "impdp", conn,
        S "directory=" ++ cfg.directory_name,
        S "dumpfile=" ++ cfg.dmp_filename,
        S "logfile=" ++ cfg.dmp_filename ++ S ".imp.log"]
      let cmd := if occursIn (S "full") joined then cmd else cmd ++ [S "full=y"]
      if occursIn (S "table_exists_action") joined then cmd
      else cmd ++ [S "table_exists_action=replace"]
  base ++ cfg.additional_params

/-- The credential pattern `username/password@` replaced during masking. -/
def DataPumpWorker.pwdPattern (cfg : DPConfig) : Str :=
  cfg.username ++ S "/" ++ cfg.password ++ S "@"

/-- The fixed-width masked credential `username/******@`. -/
def DataPumpWorker.pwdMask (cfg : DPConfig) : Str :=
  cfg.username ++ S "/******@"

/-- `DataPumpWorker._mask_password_in_cmd`: join the parts and replace every
occurrence of the credential pattern when the password is non-empty. -/
def DataPumpWorker.maskPasswordInCmd (cfg : DPConfig) (cmdParts : List Str) : Str :=
  let cmdStr := joinSp cmdParts
  if cfg.password ≠ [] then
    replaceAll (DataPumpWorker.pwdPattern cfg) (DataPumpWorker.pwdMask cfg) cmdStr
  else cmdStr

/-- The options segment of a built invocation: everything after the executable
name and the connect string. -/
def DataPumpWorker.optParts (op : DPOp) (cfg : DPConfig) : List Str :=
  (DataPumpWorker.buildCommand op cfg).drop 2

/-- The connect-string remainder after the credential pattern. -/
def DataPumpWorker.connTail (cfg : DPConfig) : Str :=
  S "//" ++ cfg.host ++ S ":" ++ natStr cfg.port ++ S "/" ++ DataPumpWorker.serviceOf cfg

/-- The invocation text following the credential pattern: the connect-string
remainder and the joined options segment.  It does not read the password. -/
def DataPumpWorker.cmdTail (op : DPOp) (cfg : DPConfig) : Str :=
  DataPumpWorker.connTail cfg ++ S " " ++ joinSp (DataPumpWorker.optParts op cfg)

/-- The credential segment of a masked invocation:
`<op> <username>/******@`, independent of the password. -/
def DataPumpWorker.credSegment (op : DPOp) (cfg : DPConfig) : Str :=
  op.name ++ S " " ++ DataPumpWorker.pwdMask cfg

/-- Observable events of `DataPumpWorker`: its three signals. -/
inductive DPEvent where
  | output (s : Str)
  | errorSig (msg : Str)
  | finished (code : Int) (success : Bool)
deriving DecidableEq

/-- True exactly on error events. -/
def isDPError : DPEvent → Bool
  | DPEvent.errorSig _ => true
  | _ => false

/-- The spawn outcome for `DataPumpWorker.run` (it catches
`FileNotFoundError` without using the exception text, and any other
exception). -/
inductive DPSpawn where
  | ok (steps : List LoopStep) (remaining : Str) (returncode : Int)
  | fileNotFound
  | otherExn (e : Str)

/-- Line handling of the poll loop in `DataPumpWorker.run` (same logic as the
command worker's loop). -/
def DataPumpWorker.pollEmit (line : Str) : Option Str :=
  if line = [] then none
  else
    let d := rstripCRLF line
    if d = [] then none else some d

/-- The progress lines produced by the data-pump poll loop. -/
def DataPumpWorker.pollOutputs : List LoopStep → List Str
  | [] => []
  | st :: rest =>
    if st.isRunning && st.procAlive then
      (match DataPumpWorker.pollEmit st.line with
       | some l => [l]
       | none => []) ++ DataPumpWorker.pollOutputs rest
    else []

/-- The post-exit drain of `DataPumpWorker.run`. -/
def DataPumpWorker.drainOutputs (remaining : Str) : List Str :=
  if remaining = [] then []
  else
    ((stripPy remaining).splitOn '\n').filterMap
      (fun l => if stripPy l ≠ [] then some (rstripCRLF l) else none)

/-- The fixed separator line (`"-" * 60`). -/
def sepLine : Str := List.replicate 60 '-'

/-- The status line emitted after the child exits. -/
def DataPumpWorker.statusLine (rc : Int) : Str :=
  if rc == 0 then S "✓ 命令执行成功 (退出码: " ++ intStr rc ++ S ")"
  else S "✗ 命令执行失败 (退出码: " ++ intStr rc ++ S ")"

/-- `DataPumpWorker.run`: emit the masked invocation and a separator, then
stream the child's output, then the separator, the status line and the
terminal event; each caught exception yields one log line, one error event and
the `-1` sentinel. -/
def DataPumpWorker.run (op : DPOp) (cfg : DPConfig) (spawn : DPSpawn) : List DPEvent :=
  let masked := DataPumpWorker.maskPasswordInCmd cfg (DataPumpWorker.buildCommand op cfg)
  [DPEvent.output (S "执行命令: " ++ masked), DPEvent.output sepLine] ++
  match spawn with
  | .ok steps remaining rc =>
    (DataPumpWorker.pollOutputs steps).map DPEvent.output
      ++ (DataPumpWorker.drainOutputs remaining).map DPEvent.output
      ++ [DPEvent.output sepLine, DPEvent.output (DataPumpWorker.statusLine rc),
          DPEvent.finished rc (rc == 0)]
  | .fileNotFound =>
    [DPEvent.output (S "[错误] " ++ (S "未找到 " ++ op.name ++
        S " 命令，请检查 Oracle 客户端是否安装并配置 PATH")),
     DPEvent.errorSig (S "未找到 " ++ op.name ++
        S " 命令，请检查 Oracle 客户端是否安装并配置 PATH"),
     DPEvent.finished (-1) false]
  | .otherExn e =>
    [DPEvent.output (S "[错误] " ++ (S "执行异常: " ++ e)),
     DPEvent.errorSig (S "执行异常: " ++ e),
     DPEvent.finished (-1) false]

/-- `"full="` flag test on one invocation part. -/
def startsFull (s : Str) : Bool := startsWithStr (S "full=") s

/-- `"table_exists_action="` flag test on one invocation part. -/
def startsTea (s : Str) : Bool := startsWithStr (S "table_exists_action=") s

/-- True exactly on `finished` events of the database operation worker. -/
def isDBFinished : DBEvent → Bool
  | DBEvent.finished => true
  | _ => false

/-- True exactly on `finished` events of the SQL worker. -/
def isSQLFinished : SQLEvent → Bool
  | SQLEvent.finished => true
  | _ => false

/-- A profile whose family is unsupported by the database operation worker. -/
def pgProfile : DBProfile := ⟨S "postgresql", S "h", 5432, S "u", S "pw", S "d"⟩

/-- A worker over the unsupported profile. -/
def pgWorker : DBOpsWorker := ⟨pgProfile, S "op", S "SELECT 1", S "table", 10⟩

/-- A MySQL profile (supported by both SQL-executing workers). -/
def myProfile : DBProfile := ⟨S "mysql", S "h", 3306, S "u", S "pw", S "d"⟩

/-- A base data-pump configuration without caller parameters. -/
def dpBase : DPConfig :=
  ⟨S "u", S "pw", S "h", 1521, none, none, S "f.dmp", S "DATA_PUMP_DIR", []⟩

/-- A data-pump configuration whose caller parameter contains the substring
`"full"` without being a `full=` flag. -/
def dpCfgCE : DPConfig :=
  ⟨S "u", S "pw", S "h", 1521, none, none, S "f.dmp", S "DATA_PUMP_DIR", [S "afull=1"]⟩

/-! ## Helper lemmas -/

theorem dropWhile_self_idem (p : Char → Bool) (l : Str) :
    (l.dropWhile p).dropWhile p = l.dropWhile p := by
  induction l with
  | nil => rfl
  | cons a t ih =>
    cases hpa : p a with
    | true => simpa [List.dropWhile_cons, hpa] using ih
    | false => simp [List.dropWhile_cons, hpa]

theorem rstripCRLF_idem (s : Str) : rstripCRLF (rstripCRLF s) = rstripCRLF s := by
  unfold rstripCRLF
  rw [List.reverse_reverse, dropWhile_self_idem]

theorem rstripCRLF_eq_nil (s : Str) (h : ∀ c ∈ s, c = '\r' ∨ c = '\n') :
    rstripCRLF s = [] := by
  unfold rstripCRLF
  have : s.reverse.dropWhile (fun c => c == '\r' || c == '\n') = [] := by
    apply List.dropWhile_eq_nil_iff.mpr
    intro x hx
    rcases h x (List.mem_reverse.mp hx) with h1 | h1 <;> subst h1 <;> rfl
  simp [this]

theorem all_crlf_of_rstrip_nil (s : Str) (h : rstripCRLF s = []) :
    ∀ c ∈ s, (c == '\r' || c == '\n') = true := by
  unfold rstripCRLF at h
  rw [List.reverse_eq_nil_iff] at h
  intro c hc
  exact List.dropWhile_eq_nil_iff.mp h c (List.mem_reverse.mpr hc)

theorem crlf_is_pyws {c : Char} (h : (c == '\r' || c == '\n') = true) : isPyWs c = true := by
  rcases Bool.or_eq_true_iff.mp h with h1 | h1
  · rw [show c = '\r' from beq_iff_eq.mp h1]; rfl
  · rw [show c = '\n' from beq_iff_eq.mp h1]; rfl

theorem stripPy_eq_nil (s : Str) (h : ∀ c ∈ s, isPyWs c = true) : stripPy s = [] := by
  unfold stripPy
  have h1 : s.dropWhile isPyWs = [] := List.dropWhile_eq_nil_iff.mpr h
  simp [h1]

theorem rstrip_ne_nil_of_strip_ne_nil (s : Str) (h : stripPy s ≠ []) :
    rstripCRLF s ≠ [] := by
  intro hr
  exact h (stripPy_eq_nil s (fun c hc => crlf_is_pyws (all_crlf_of_rstrip_nil s hr c hc)))

theorem dpPollEmit_eq (s : Str) : DataPumpWorker.pollEmit s = CommandWorker.pollEmit s := rfl

theorem dpDrain_eq (s : Str) :
    DataPumpWorker.drainOutputs s = CommandWorker.drainOutputs s := rfl

theorem pollEmit_spec (s : Str) :
    (∀ e, CommandWorker.pollEmit s = some e → e ≠ [] ∧ rstripCRLF e = e) ∧
    ((∀ c ∈ s, c = '\r' ∨ c = '\n') → CommandWorker.pollEmit s = none) := by
  constructor
  · intro e he
    unfold CommandWorker.pollEmit at he
    by_cases h0 : s = []
    · simp [h0] at he
    · simp only [h0, if_false, reduceIte] at he
      by_cases h1 : rstripCRLF s = []
      · simp [h1] at he
      · simp only [h1, if_false, reduceIte, Option.some.injEq] at he
        subst he
        exact ⟨h1, rstripCRLF_idem s⟩
  · intro h
    unfold CommandWorker.pollEmit
    by_cases h0 : s = []
    · simp [h0]
    · simp [h0, rstripCRLF_eq_nil s h]

theorem drainOutputs_spec (s : Str) :
    (∀ e ∈ CommandWorker.drainOutputs s, e ≠ [] ∧ rstripCRLF e = e) ∧
    ((∀ c ∈ s, isPyWs c = true) → CommandWorker.drainOutputs s = []) := by
  constructor
  · intro e he
    unfold CommandWorker.drainOutputs at he
    by_cases h0 : s = []
    · simp [h0] at he
    · simp only [h0, if_false, reduceIte] at he
      obtain ⟨a, _, hfa⟩ := List.mem_filterMap.mp he
      by_cases hstrip : stripPy a = []
      · simp [hstrip] at hfa
      · simp only [hstrip, ne_eq, not_false_eq_true, if_true, reduceIte,
          Option.some.injEq] at hfa
        subst hfa
        exact ⟨rstrip_ne_nil_of_strip_ne_nil a hstrip, rstripCRLF_idem a⟩
  · intro h
    unfold CommandWorker.drainOutputs
    by_cases h0 : s = []
    · simp [h0]
    · have h1 : stripPy s = [] := stripPy_eq_nil s h
      rw [if_neg h0, h1]
      rfl

/-! ## Claims C3, C4, C9 -/

/-- Claim C3: in table-shaped results, every cell whose string rendering
exceeds the fixed 1000-character truncation budget is shortened to exactly the
budget length — its first 997 characters plus the 3-character ellipsis marker
`"..."` — and every cell at or below the budget passes through unchanged; this
holds for both the database operation worker and the SQL worker. -/
theorem cell_truncation_budget (s : Str) :
    (1000 < s.length →
      DBOpsWorker.renderTableCell (some s) = s.take 997 ++ S "..." ∧
      (DBOpsWorker.renderTableCell (some s)).length = 1000 ∧
      SQLWorker.renderCell (some s) = s.take 997 ++ S "...") ∧
    (s.length ≤ 1000 →
      DBOpsWorker.renderTableCell (some s) = s ∧
      SQLWorker.renderCell (some s) = s) := by
  constructor
  · intro h
    have ht : DBOpsWorker.renderTableCell (some s) = s.take 997 ++ S "..." := by
      simp [DBOpsWorker.renderTableCell, DBOpsWorker.truncCell, h]
    refine ⟨ht, ?_, by simp [SQLWorker.renderCell, h]⟩
    rw [ht, List.length_append, List.length_take]
    have h3 : (S "...").length = 3 := rfl
    omega
  · intro h
    have hn : ¬ 1000 < s.length := by omega
    exact ⟨by simp [DBOpsWorker.renderTableCell, DBOpsWorker.truncCell, hn],
      by simp [SQLWorker.renderCell, hn]⟩

theorem cell_truncation_budget_witness :
    1000 < (List.replicate 1001 'a').length ∧
    (DBOpsWorker.renderTableCell (some (List.replicate 1001 'a')) =
        (List.replicate 1001 'a').take 997 ++ S "..." ∧
      (DBOpsWorker.renderTableCell (some (List.replicate 1001 'a'))).length = 1000 ∧
      SQLWorker.renderCell (some (List.replicate 1001 'a')) =
        (List.replicate 1001 'a').take 997 ++ S "...") :=
  ⟨by simp, (cell_truncation_budget (List.replicate 1001 'a')).1 (by simp)⟩

/-- Claim C4: in rows rendered by the database operation worker, a NULL cell in
"table" shape renders as the empty string, and in "text" shape a NULL cell of
a row with more than one column renders as the literal `"NULL"`, the columns
being joined with the `" | "` separator and the rows with newlines. -/
theorem null_rendering_shapes :
    DBOpsWorker.renderTableCell none = [] ∧
    (∀ rows : List (List (Option Str)), rows ≠ [] →
      DBOpsWorker.renderTextResult rows =
        List.intercalate (S "\n") (rows.map DBOpsWorker.renderTextRow)) ∧
    (∀ row : List (Option Str), 1 < row.length →
      DBOpsWorker.renderTextRow row =
        List.intercalate (S " | ")
          (row.map (fun c => match c with | none => S "NULL" | some s => s))) := by
  refine ⟨rfl, ?_, ?_⟩
  · intro rows h
    simp [DBOpsWorker.renderTextResult, h]
  · intro row h
    match row, h with
    | a :: b :: t, _ => rfl

theorem null_rendering_shapes_witness :
    (([[some (S "A")], [some (S "B")]] : List (List (Option Str))) ≠ [] ∧
      DBOpsWorker.renderTextResult [[some (S "A")], [some (S "B")]] =
        List.intercalate (S "\n")
          (([[some (S "A")], [some (S "B")]] : List (List (Option Str))).map
            DBOpsWorker.renderTextRow)) ∧
    (1 < ([none, some (S "x")] : List (Option Str)).length ∧
      DBOpsWorker.renderTextRow [none, some (S "x")] =
        List.intercalate (S " | ")
          (([none, some (S "x")] : List (Option Str)).map
            (fun c => match c with | none => S "NULL" | some s => s))) :=
  ⟨⟨by decide, null_rendering_shapes.2.1 _ (by decide)⟩,
   ⟨by decide, null_rendering_shapes.2.2 _ (by decide)⟩⟩

/-- Claim C9: neither process worker ever emits a progress event for an output
line consisting solely of line terminators (or only whitespace in the drain
phase); every delivered line is right-trimmed of `"\r\n"` and non-empty, in
both the poll loop and the post-exit drain. -/
theorem no_blank_progress_lines (s : Str) :
    (∀ e, CommandWorker.pollEmit s = some e → e ≠ [] ∧ rstripCRLF e = e) ∧
    ((∀ c ∈ s, c = '\r' ∨ c = '\n') → CommandWorker.pollEmit s = none) ∧
    (∀ e ∈ CommandWorker.drainOutputs s, e ≠ [] ∧ rstripCRLF e = e) ∧
    ((∀ c ∈ s, isPyWs c = true) → CommandWorker.drainOutputs s = []) ∧
    (∀ e, DataPumpWorker.pollEmit s = some e → e ≠ [] ∧ rstripCRLF e = e) ∧
    ((∀ c ∈ s, c = '\r' ∨ c = '\n') → DataPumpWorker.pollEmit s = none) ∧
    (∀ e ∈ DataPumpWorker.drainOutputs s, e ≠ [] ∧ rstripCRLF e = e) ∧
    ((∀ c ∈ s, isPyWs c = true) → DataPumpWorker.drainOutputs s = []) := by
  refine ⟨(pollEmit_spec s).1, (pollEmit_spec s).2, (drainOutputs_spec s).1,
    (drainOutputs_spec s).2, ?_, ?_, ?_, ?_⟩
  · intro e he
    exact (pollEmit_spec s).1 e ((dpPollEmit_eq s) ▸ he)
  · intro h
    rw [dpPollEmit_eq]
    exact (pollEmit_spec s).2 h
  · intro e he
    exact (drainOutputs_spec s).1 e ((dpDrain_eq s) ▸ he)
  · intro h
    rw [dpDrain_eq]
    exact (drainOutputs_spec s).2 h

theorem no_blank_progress_lines_witness :
    (CommandWorker.pollEmit (S "ab\r\n") = some (S "ab") ∧
      (S "ab" ≠ [] ∧ rstripCRLF (S "ab") = S "ab")) ∧
    ((∀ c ∈ S "\r\n", c = '\r' ∨ c = '\n') ∧ CommandWorker.pollEmit (S "\r\n") = none) ∧
    ((∀ c ∈ S " \r\n ", isPyWs c = true) ∧ DataPumpWorker.drainOutputs (S " \r\n ") = []) :=
  ⟨⟨by decide, (no_blank_progress_lines (S "ab\r\n")).1 (S "ab") (by decide)⟩,
   ⟨by decide, (no_blank_progress_lines (S "\r\n")).2.1 (by decide)⟩,
   ⟨by decide, (no_blank_progress_lines (S " \r\n ")).2.2.2.2.2.2.2 (by decide)⟩⟩

theorem executeSql_no_finished (w : DBOpsWorker) (sn : SqlNet) :
    ((DBOpsWorker.executeSql w sn).1).countP isDBFinished = 0 := by
  cases hcs : DBOpsWorker.buildConnectionString w.profile with
  | none => simp [DBOpsWorker.executeSql, hcs]
  | some cs =>
    cases sn with
    | raises e => simp [DBOpsWorker.executeSql, hcs, isDBFinished]
    | noCursor rc => simp [DBOpsWorker.executeSql, hcs, isDBFinished]
    | cursor cols rows =>
      by_cases hrt : w.result_type = S "text" <;>
        simp [DBOpsWorker.executeSql, hcs, hrt, isDBFinished]

theorem executeMongo_no_finished (w : DBOpsWorker) (mn : MongoNet) :
    ((DBOpsWorker.executeMongo w mn).1).countP isDBFinished = 0 := by
  cases mn <;> simp [DBOpsWorker.executeMongo, isDBFinished]

theorem trace_last {A : Type} (l m : List A) (a : A) :
    (l ++ m ++ [a]).getLast? = some a :=
  List.getLast?_concat _

theorem trace_count {A : Type} (p : A → Bool) (l m : List A) (a : A)
    (hl : l.countP p = 0) (hm : m.countP p = 0) (ha : p a = true) :
    (l ++ m ++ [a]).countP p = 1 := by
  simp [List.countP_append, List.countP_cons, hl, hm, ha]

/-- Claim C1: for every run of a database worker (`SQLWorker.run` or
`DBOpsWorker.run`) — success, raised exception, or classified error — no
exception escapes the worker (both `run` embeddings are total functions over
all backend outcomes, each `except` clause of the source being one match arm),
and the `finished` signal is emitted exactly once, as the last event, hence
after any result or error signal. -/
theorem dbworkers_finished_exactly_once (w : DBOpsWorker) (sn : SqlNet) (mn : MongoNet)
    (stopped : Bool) (p : DBProfile) (sqlRaw : Str) (net : SQLNet) :
    ((DBOpsWorker.run w sn mn stopped).countP isDBFinished = 1 ∧
      (DBOpsWorker.run w sn mn stopped).getLast? = some DBEvent.finished) ∧
    ((SQLWorker.run p sqlRaw net).countP isSQLFinished = 1 ∧
      (SQLWorker.run p sqlRaw net).getLast? = some SQLEvent.finished) := by
  constructor
  · unfold DBOpsWorker.run
    rcases hbody : (if toLowerStr w.profile.db_type = S "mongodb" then
        DBOpsWorker.executeMongo w mn else DBOpsWorker.executeSql w sn) with ⟨tr, r⟩
    have htr : tr.countP isDBFinished = 0 := by
      by_cases hm : toLowerStr w.profile.db_type = S "mongodb"
      · rw [if_pos hm] at hbody
        have := executeMongo_no_finished w mn
        rw [hbody] at this
        exact this
      · rw [if_neg hm] at hbody
        have := executeSql_no_finished w sn
        rw [hbody] at this
        exact this
    cases r with
    | ok payload =>
      exact ⟨trace_count _ _ _ _ htr
          (by cases stopped <;> simp [isDBFinished]) rfl,
        trace_last _ _ _⟩
    | error e =>
      exact ⟨trace_count _ _ _ _ htr
          (by cases stopped <;> simp [isDBFinished]) rfl,
        trace_last _ _ _⟩
  · unfold SQLWorker.run
    cases hcs : SQLWorker.buildConnectionString p with
    | none =>
      exact ⟨by simp [List.countP_cons, isSQLFinished], List.getLast?_concat _⟩
    | some cs =>
      cases net with
      | connectRaises e sqla =>
        exact ⟨by simp [List.countP_cons, isSQLFinished], List.getLast?_concat _⟩
      | execRaises e sqla =>
        exact ⟨by simp [List.countP_cons, isSQLFinished], List.getLast?_concat _⟩
      | ok headers rows rc commitErr =>
        cases commitErr with
        | none =>
          refine ⟨?_, List.getLast?_concat _⟩
          cases hsel : SQLWorker.isSelect (stripPy sqlRaw) <;>
            simp [hsel, List.countP_cons, isSQLFinished]
        | some e =>
          refine ⟨?_, List.getLast?_concat _⟩
          cases hsel : SQLWorker.isSelect (stripPy sqlRaw) <;>
            simp [hsel, List.countP_cons, isSQLFinished]

/-- Claim C2: a profile whose family tag is unsupported yields no connection
target (`_build_connection_string` returns `None`), the run terminates with the
configuration-error event (the classified `ValueError` diagnostic naming the
unsupported family) followed by `finished`, and no network attempt
(`netConnect` event) occurs. -/
theorem unsupported_family_config_error (w : DBOpsWorker) (sn : SqlNet) (mn : MongoNet)
    (hdb : toLowerStr w.profile.db_type ∉
      ([S "mysql", S "mariadb", S "oracle", S "sqlserver", S "mongodb"] : List Str)) :
    DBOpsWorker.buildConnectionString w.profile = none ∧
    DBOpsWorker.run w sn mn false =
      [DBEvent.errorSig
        (DBOpsWorker.parseError w.timeout (S "不支持的数据库类型: " ++ w.profile.db_type)
          w.profile.db_type) w.sql_text,
       DBEvent.finished] ∧
    (∀ t, DBEvent.netConnect t ∉ DBOpsWorker.run w sn mn false) := by
  simp only [List.mem_cons, List.not_mem_nil, or_false, not_or] at hdb
  obtain ⟨h1, h2, h3, h4, h5⟩ := hdb
  have hbcs : DBOpsWorker.buildConnectionString w.profile = none := by
    simp [DBOpsWorker.buildConnectionString, h1, h2, h3, h4]
  have hrun : DBOpsWorker.run w sn mn false =
      [DBEvent.errorSig
        (DBOpsWorker.parseError w.timeout (S "不支持的数据库类型: " ++ w.profile.db_type)
          w.profile.db_type) w.sql_text,
       DBEvent.finished] := by
    unfold DBOpsWorker.run
    rw [if_neg h5]
    unfold DBOpsWorker.executeSql
    rw [hbcs]
    simp
  refine ⟨hbcs, hrun, ?_⟩
  intro t
  rw [hrun]
  simp

theorem unsupported_family_config_error_witness :
    (toLowerStr pgWorker.profile.db_type ∉
      ([S "mysql", S "mariadb", S "oracle", S "sqlserver", S "mongodb"] : List Str)) ∧
    DBOpsWorker.buildConnectionString pgWorker.profile = none ∧
    DBOpsWorker.run pgWorker (SqlNet.raises (S "x")) (MongoNet.ok (S "ok")) false =
      [DBEvent.errorSig
        (DBOpsWorker.parseError pgWorker.timeout
          (S "不支持的数据库类型: " ++ pgWorker.profile.db_type)
          pgWorker.profile.db_type) pgWorker.sql_text,
       DBEvent.finished] :=
  ⟨by decide,
   (unsupported_family_config_error pgWorker (SqlNet.raises (S "x"))
      (MongoNet.ok (S "ok")) (by decide)).1,
   (unsupported_family_config_error pgWorker (SqlNet.raises (S "x"))
      (MongoNet.ok (S "ok")) (by decide)).2.1⟩

/-- Claim C6: when the executable does not exist, each process worker emits
exactly one error event and a terminal event carrying the fixed `-1` sentinel,
and no exception escapes (the raising spawn is one caught outcome of the total
`run` function). -/
theorem missing_executable_sentinel (e : Str) (op : DPOp) (cfg : DPConfig) :
    CommandWorker.run (SpawnOutcome.fileNotFound e) =
      [CmdEvent.errorSig (S "[错误] 命令未找到: " ++ e), CmdEvent.finished (-1)] ∧
    (CommandWorker.run (SpawnOutcome.fileNotFound e)).countP isCmdError = 1 ∧
    (CommandWorker.run (SpawnOutcome.fileNotFound e)).getLast? =
      some (CmdEvent.finished (-1)) ∧
    (DataPumpWorker.run op cfg DPSpawn.fileNotFound).countP isDPError = 1 ∧
    (DataPumpWorker.run op cfg DPSpawn.fileNotFound).getLast? =
      some (DPEvent.finished (-1) false) :=
  ⟨rfl, rfl, rfl, rfl, rfl⟩

theorem count_map_cmdOutput (l : List Str) :
    (l.map CmdEvent.output).countP isCmdFinished = 0 := by
  rw [List.countP_map]
  simp [Function.comp, isCmdFinished]

/-- Counterexample to claim C7 as stated: a run cancelled while the child is
alive produces a trace identical to an uncancelled plain-exit run — the
terminal event is an ordinary `finished` carrying the child's post-termination
return code (here `-15`), not a distinct "cancelled" kind, and not the `-1`
sentinel. -/
theorem cancel_not_distinct_counterexample :
    CommandWorker.run (SpawnOutcome.ok [⟨false, true, S "x"⟩] [] (-15)) =
      CommandWorker.run (SpawnOutcome.ok [] [] (-15)) ∧
    CommandWorker.run (SpawnOutcome.ok [⟨false, true, S "x"⟩] [] (-15)) =
      [CmdEvent.finished (-15)] ∧
    CmdEvent.finished (-15) ≠ CmdEvent.finished (-1) :=
  ⟨rfl, rfl, by decide⟩

/-- Claim C7 (amended): cancelling a running process worker still yields
exactly one terminal event, delivered last, but it carries the child's final
return code and is not a distinct "cancelled" kind.  `stop()` on a live
process issues `terminate` then waits up to the 2-second grace period,
force-killing on expiry, so the handle is released within the
grace-plus-force window on every path where `terminate`/`wait` return
normally or time out; when one of them raises an unexpected exception
instead, `stop()` swallows it and issues no kill, so release is not confirmed
on that path. -/
theorem cancel_terminal_amended (steps : List LoopStep) (remaining : Str) (rc : Int)
    (hcancel : ∃ st ∈ steps, st.isRunning = false) :
    (CommandWorker.run (SpawnOutcome.ok steps remaining rc)).countP isCmdFinished = 1 ∧
    (CommandWorker.run (SpawnOutcome.ok steps remaining rc)).getLast? =
      some (CmdEvent.finished rc) ∧
    (∀ k, CommandWorker.stopModel true TermOutcome.ok WaitOutcome.exits k =
      ([StopAction.terminate, StopAction.waitGrace], none)) ∧
    CommandWorker.stopModel true TermOutcome.ok WaitOutcome.timesOut KillOutcome.ok =
      ([StopAction.terminate, StopAction.waitGrace, StopAction.kill], none) ∧
    (∀ e wait k, CommandWorker.stopModel true (TermOutcome.raises e) wait k =
      ([StopAction.terminate], none)) ∧
    (∀ e k, CommandWorker.stopModel true TermOutcome.ok (WaitOutcome.raises e) k =
      ([StopAction.terminate, StopAction.waitGrace], none)) := by
  refine ⟨?_, trace_last _ _ _, fun k => rfl, rfl, fun e wait k => rfl, fun e k => rfl⟩
  exact trace_count _ _ _ _ (count_map_cmdOutput _) (count_map_cmdOutput _) rfl

theorem cancel_terminal_amended_witness :
    (∃ st ∈ [(⟨false, true, S "x"⟩ : LoopStep)], st.isRunning = false) ∧
    ((CommandWorker.run (SpawnOutcome.ok [⟨false, true, S "x"⟩] [] (-15))).countP
        isCmdFinished = 1 ∧
      (CommandWorker.run (SpawnOutcome.ok [⟨false, true, S "x"⟩] [] (-15))).getLast? =
        some (CmdEvent.finished (-15)) ∧
      (∀ k, CommandWorker.stopModel true TermOutcome.ok WaitOutcome.exits k =
        ([StopAction.terminate, StopAction.waitGrace], none)) ∧
      CommandWorker.stopModel true TermOutcome.ok WaitOutcome.timesOut KillOutcome.ok =
        ([StopAction.terminate, StopAction.waitGrace, StopAction.kill], none) ∧
      (∀ e wait k, CommandWorker.stopModel true (TermOutcome.raises e) wait k =
        ([StopAction.terminate], none)) ∧
      (∀ e k, CommandWorker.stopModel true TermOutcome.ok (WaitOutcome.raises e) k =
        ([StopAction.terminate, StopAction.waitGrace], none))) :=
  ⟨by decide, cancel_terminal_amended [⟨false, true, S "x"⟩] [] (-15) (by decide)⟩

/-- Claim C10: `SQLWorker` routes a statement by prefix of its stripped,
upper-cased text over SELECT/SHOW/DESCRIBE/DESC/EXPLAIN; the query path emits
`select_result_signal` with headers and rendered rows, every other statement
takes the execute path and emits `execute_result_signal` with the affected row
count; in both cases the transaction commit precedes the connection close. -/
theorem sql_routing_commit (p : DBProfile) (sqlRaw : Str) (headers : List Str)
    (rows : List (List (Option Str))) (rc : Int) (cs : Str)
    (hcs : SQLWorker.buildConnectionString p = some cs) :
    (SQLWorker.isSelect (stripPy sqlRaw) = true →
      SQLWorker.run p sqlRaw (SQLNet.ok headers rows rc none) =
        [SQLEvent.netConnect cs,
         SQLEvent.selectResult headers (SQLWorker.renderRows rows),
         SQLEvent.commit, SQLEvent.close, SQLEvent.finished]) ∧
    (SQLWorker.isSelect (stripPy sqlRaw) = false →
      SQLWorker.run p sqlRaw (SQLNet.ok headers rows rc none) =
        [SQLEvent.netConnect cs,
         SQLEvent.executeResult rc (SQLWorker.executeMessage (stripPy sqlRaw) rc),
         SQLEvent.commit, SQLEvent.close, SQLEvent.finished]) ∧
    SQLWorker.isSelect (stripPy sqlRaw) =
      (startsWithStr (S "SELECT") (toUpperStr (stripPy sqlRaw)) ||
       startsWithStr (S "SHOW") (toUpperStr (stripPy sqlRaw)) ||
       startsWithStr (S "DESCRIBE") (toUpperStr (stripPy sqlRaw)) ||
       startsWithStr (S "DESC") (toUpperStr (stripPy sqlRaw)) ||
       startsWithStr (S "EXPLAIN") (toUpperStr (stripPy sqlRaw))) := by
  refine ⟨?_, ?_, rfl⟩
  · intro hsel
    unfold SQLWorker.run
    rw [hcs]
    simp [hsel]
  · intro hsel
    unfold SQLWorker.run
    rw [hcs]
    simp [hsel]

theorem sql_routing_commit_witness :
    SQLWorker.buildConnectionString myProfile = some (S "mysql+pymysql://u:pw@h:3306/d") ∧
    SQLWorker.isSelect (stripPy (S "select 1")) = true ∧
    SQLWorker.run myProfile (S "select 1") (SQLNet.ok [S "1"] [[some (S "1")]] (-1) none) =
      [SQLEvent.netConnect (S "mysql+pymysql://u:pw@h:3306/d"),
       SQLEvent.selectResult [S "1"] (SQLWorker.renderRows [[some (S "1")]]),
       SQLEvent.commit, SQLEvent.close, SQLEvent.finished] :=
  ⟨by decide, by decide,
   (sql_routing_commit myProfile (S "select 1") [S "1"] [[some (S "1")]] (-1)
      (S "mysql+pymysql://u:pw@h:3306/d") (by decide)).1 (by decide)⟩

theorem mem_of_period : ∀ (n : Nat) (pat d q : Str), pat.length ≤ n → d ≠ [] →
    pat = d ++ q → q <+: pat → ∀ c ∈ pat, c ∈ d := by
  intro n
  induction n with
  | zero =>
    intro pat d q hlen _ _ _ c hc
    have hnil : pat = [] := List.length_eq_zero.mp (Nat.le_zero.mp hlen)
    rw [hnil] at hc
    simp at hc
  | succ n ih =>
    intro pat d q hlen hd hpq hqp c hc
    subst hpq
    rcases List.mem_append.mp hc with h | h
    · exact h
    · rcases le_or_lt q.length d.length with hle | hlt
      · have hqd : q <+: d :=
          List.prefix_of_prefix_length_le hqp (List.prefix_append d q) hle
        exact hqd.subset h
      · have hdq : d <+: q :=
          List.prefix_of_prefix_length_le (List.prefix_append d q) hqp (Nat.le_of_lt hlt)
        obtain ⟨q2, rfl⟩ := hdq
        have hq2 : q2 <+: d ++ q2 := (List.prefix_append_right_inj d).mp hqp
        have hlen2 : (d ++ q2).length ≤ n := by
          have hd1 : 1 ≤ d.length := by
            cases d with
            | nil => exact absurd rfl hd
            | cons a t => simp
          simp only [List.length_append] at hlen ⊢
          omega
        exact ih (d ++ q2) d q2 hlen2 hd rfl hq2 c h

theorem no_occurrence_in_margin {pat d t : Str} (hat : '@' ∈ pat) (hd : '@' ∉ d)
    (hdne : d ≠ []) : ¬ pat <+: d ++ (pat ++ t) := by
  intro h
  rcases le_or_lt pat.length d.length with hle | hlt
  · have hpd : pat <+: d :=
      List.prefix_of_prefix_length_le h (List.prefix_append d _) hle
    exact hd (hpd.subset hat)
  · have hdp : d <+: pat :=
      List.prefix_of_prefix_length_le (List.prefix_append d _) h (Nat.le_of_lt hlt)
    obtain ⟨q, rfl⟩ := hdp
    have hq : q <+: (d ++ q) ++ t := (List.prefix_append_right_inj d).mp h
    have hq2 : q <+: d ++ q := by
      apply List.prefix_of_prefix_length_le hq (List.prefix_append _ _)
      simp only [List.length_append]
      omega
    exact hd (mem_of_period (d ++ q).length (d ++ q) d q (Nat.le_refl _) hdne rfl hq2 '@' hat)

theorem replaceAll_head (pat repl t : Str) (hp : pat ≠ []) :
    replaceAll pat repl (pat ++ t) = repl ++ replaceAll pat repl t := by
  cases pat with
  | nil => exact absurd rfl hp
  | cons a as =>
    rw [List.cons_append]
    simp only [replaceAll]
    rw [dif_pos ⟨List.cons_ne_nil a as, List.prefix_append (a :: as) t⟩]
    have hdrop : (a :: (as ++ t)).drop (a :: as).length = t := by
      rw [← List.cons_append]
      exact List.drop_left _ _
    rw [hdrop]

theorem replaceAll_skip (pat repl : Str) : ∀ (pre s : Str),
    (∀ d, d ≠ [] → d <:+ pre → ¬ pat <+: (d ++ s)) →
    replaceAll pat repl (pre ++ s) = pre ++ replaceAll pat repl s := by
  intro pre
  induction pre with
  | nil =>
    intro s _
    simp
  | cons c pre ih =>
    intro s hno
    have h1 : ¬ pat <+: ((c :: pre) ++ s) :=
      hno (c :: pre) (List.cons_ne_nil c pre) (List.suffix_refl _)
    have hstep : replaceAll pat repl ((c :: pre) ++ s) =
        c :: replaceAll pat repl (pre ++ s) := by
      rw [List.cons_append]
      simp only [replaceAll]
      rw [dif_neg]
      intro hcontra
      exact h1 hcontra.2
    rw [hstep, ih s (fun d hdne hds => hno d hdne (hds.trans (List.suffix_cons c pre)))]
    rfl

theorem buildCommand_shape (op : DPOp) (cfg : DPConfig) :
    DataPumpWorker.buildCommand op cfg =
      op.name :: DataPumpWorker.connStr cfg :: DataPumpWorker.optParts op cfg := by
  cases op <;>
    simp only [DataPumpWorker.optParts, DataPumpWorker.buildCommand, DPOp.name] <;>
    split_ifs <;> rfl

theorem optParts_head (op : DPOp) (cfg : DPConfig) :
    ∃ rest, DataPumpWorker.optParts op cfg =
      (S "directory=" ++ cfg.directory_name) :: rest := by
  cases op <;>
    simp only [DataPumpWorker.optParts, DataPumpWorker.buildCommand] <;>
    split_ifs <;> exact ⟨_, rfl⟩

theorem connStr_split (cfg : DPConfig) :
    DataPumpWorker.connStr cfg =
      DataPumpWorker.pwdPattern cfg ++ DataPumpWorker.connTail cfg := by
  unfold DataPumpWorker.connStr DataPumpWorker.pwdPattern DataPumpWorker.connTail
  simp [List.append_assoc]

theorem joinSp_cons (a : Str) (l : List Str) (hl : l ≠ []) :
    joinSp (a :: l) = a ++ S " " ++ joinSp l := by
  cases l with
  | nil => exact absurd rfl hl
  | cons b t => rfl

theorem at_mem_pwdPattern (cfg : DPConfig) : '@' ∈ DataPumpWorker.pwdPattern cfg := by
  unfold DataPumpWorker.pwdPattern
  exact List.mem_append.mpr (Or.inr (by decide))

theorem at_not_mem_margin (op : DPOp) : '@' ∉ op.name ++ S " " := by
  cases op <;> decide

theorem pwdPattern_ne_nil (cfg : DPConfig) : DataPumpWorker.pwdPattern cfg ≠ [] := by
  unfold DataPumpWorker.pwdPattern
  intro h
  simp only [List.append_eq_nil] at h
  exact (by decide : S "@" ≠ []) h.2

theorem maskCmd_structure (op : DPOp) (cfg : DPConfig) (hp : cfg.password ≠ []) :
    DataPumpWorker.maskPasswordInCmd cfg (DataPumpWorker.buildCommand op cfg) =
      DataPumpWorker.credSegment op cfg ++
        replaceAll (DataPumpWorker.pwdPattern cfg) (DataPumpWorker.pwdMask cfg)
          (DataPumpWorker.cmdTail op cfg) := by
  obtain ⟨rest, hop⟩ := optParts_head op cfg
  have hjoin : joinSp (DataPumpWorker.buildCommand op cfg) =
      (op.name ++ S " ") ++
        (DataPumpWorker.pwdPattern cfg ++ DataPumpWorker.cmdTail op cfg) := by
    rw [buildCommand_shape]
    rw [joinSp_cons _ _ (by simp)]
    rw [joinSp_cons _ _ (by rw [hop]; simp)]
    rw [connStr_split]
    unfold DataPumpWorker.cmdTail
    simp [List.append_assoc]
  simp only [DataPumpWorker.maskPasswordInCmd]
  rw [if_pos hp, hjoin]
  rw [replaceAll_skip _ _ _ _ (fun d hdne hds =>
    no_occurrence_in_margin (at_mem_pwdPattern cfg)
      (fun hmem => at_not_mem_margin op (hds.subset hmem)) hdne)]
  rw [replaceAll_head _ _ _ (pwdPattern_ne_nil cfg)]
  unfold DataPumpWorker.credSegment
  simp [List.append_assoc]

theorem credSegment_setPwd (op : DPOp) (base : DPConfig) (p : Str) :
    DataPumpWorker.credSegment op (base.setPwd p) = DataPumpWorker.credSegment op base := rfl

theorem pwdMask_setPwd (base : DPConfig) (p : Str) :
    DataPumpWorker.pwdMask (base.setPwd p) = DataPumpWorker.pwdMask base := rfl

theorem optParts_setPwd (op : DPOp) (base : DPConfig) (p : Str) :
    DataPumpWorker.optParts op (base.setPwd p) = DataPumpWorker.optParts op base := by
  cases op <;>
    simp only [DataPumpWorker.optParts, DataPumpWorker.buildCommand, DPConfig.setPwd] <;>
    split_ifs <;> rfl

theorem cmdTail_setPwd (op : DPOp) (base : DPConfig) (p : Str) :
    DataPumpWorker.cmdTail op (base.setPwd p) = DataPumpWorker.cmdTail op base := by
  unfold DataPumpWorker.cmdTail
  rw [optParts_setPwd]
  simp only [DataPumpWorker.connTail, DataPumpWorker.serviceOf, DPConfig.setPwd]

/-- Claim C5: for two data-transfer configurations differing only in their
(non-empty) passwords, the masked invocation strings agree on the credential
segment `<op> <username>/******@`, whose length is fixed (mask width 6,
independent of either password's length); the remainder of both masked strings
is the same password-independent tail, with any further occurrence of the
respective credential pattern masked by the same replacement, so the
surrounding username/connect-string structure is preserved. -/
theorem mask_length_invariant (op : DPOp) (base : DPConfig) (p1 p2 : Str)
    (h1 : p1 ≠ []) (h2 : p2 ≠ []) :
    DataPumpWorker.maskPasswordInCmd (base.setPwd p1)
        (DataPumpWorker.buildCommand op (base.setPwd p1)) =
      DataPumpWorker.credSegment op base ++
        replaceAll (DataPumpWorker.pwdPattern (base.setPwd p1))
          (DataPumpWorker.pwdMask base) (DataPumpWorker.cmdTail op base) ∧
    DataPumpWorker.maskPasswordInCmd (base.setPwd p2)
        (DataPumpWorker.buildCommand op (base.setPwd p2)) =
      DataPumpWorker.credSegment op base ++
        replaceAll (DataPumpWorker.pwdPattern (base.setPwd p2))
          (DataPumpWorker.pwdMask base) (DataPumpWorker.cmdTail op base) ∧
    (DataPumpWorker.credSegment op base).length =
      op.name.length + base.username.length + 9 := by
  have e1 := maskCmd_structure op (base.setPwd p1) h1
  rw [credSegment_setPwd, pwdMask_setPwd, cmdTail_setPwd] at e1
  have e2 := maskCmd_structure op (base.setPwd p2) h2
  rw [credSegment_setPwd, pwdMask_setPwd, cmdTail_setPwd] at e2
  refine ⟨e1, e2, ?_⟩
  unfold DataPumpWorker.credSegment DataPumpWorker.pwdMask
  simp only [List.length_append]
  have hs1 : (S " ").length = 1 := rfl
  have hs8 : (S "/******@").length = 8 := rfl
  omega

theorem mask_length_invariant_witness :
    (S "a" ≠ [] ∧ S "bb" ≠ []) ∧
    (DataPumpWorker.maskPasswordInCmd (dpBase.setPwd (S "a"))
        (DataPumpWorker.buildCommand DPOp.expdp (dpBase.setPwd (S "a"))) =
      DataPumpWorker.credSegment DPOp.expdp dpBase ++
        replaceAll (DataPumpWorker.pwdPattern (dpBase.setPwd (S "a")))
          (DataPumpWorker.pwdMask dpBase) (DataPumpWorker.cmdTail DPOp.expdp dpBase) ∧
     DataPumpWorker.maskPasswordInCmd (dpBase.setPwd (S "bb"))
        (DataPumpWorker.buildCommand DPOp.expdp (dpBase.setPwd (S "bb"))) =
      DataPumpWorker.credSegment DPOp.expdp dpBase ++
        replaceAll (DataPumpWorker.pwdPattern (dpBase.setPwd (S "bb")))
          (DataPumpWorker.pwdMask dpBase) (DataPumpWorker.cmdTail DPOp.expdp dpBase) ∧
     (DataPumpWorker.credSegment DPOp.expdp dpBase).length =
       DPOp.expdp.name.length + dpBase.username.length + 9) :=
  ⟨⟨by decide, by decide⟩,
   mask_length_invariant DPOp.expdp dpBase (S "a") (S "bb") (by decide) (by decide)⟩

theorem bool_eq_false {b : Bool} (h : ¬ b = true) : b = false := by
  cases b
  · rfl
  · exact absurd rfl h

theorem infix_extend_left (p x l : Str) (h : p <:+: l) : p <:+: x ++ l := by
  obtain ⟨s, t, hst⟩ := h
  exact ⟨x ++ s, t, by rw [← hst]; simp [List.append_assoc]⟩

theorem infix_extend_right (p l x : Str) (h : p <:+: l) : p <:+: l ++ x := by
  obtain ⟨s, t, hst⟩ := h
  exact ⟨s, t ++ x, by rw [← hst]; simp [List.append_assoc]⟩

theorem mem_infix_joinSp (p : Str) : ∀ l : List Str, p ∈ l → p <:+: joinSp l := by
  intro l
  induction l with
  | nil =>
    intro h
    simp at h
  | cons a t ih =>
    intro h
    rcases List.mem_cons.mp h with rfl | hmem
    · cases t with
      | nil => exact List.infix_refl _
      | cons b t2 =>
        rw [joinSp_cons _ _ (by simp)]
        exact infix_extend_right _ _ _ (infix_extend_right _ _ _ (List.infix_refl _))
    · cases t with
      | nil => simp at hmem
      | cons b t2 =>
        rw [joinSp_cons _ _ (by simp)]
        exact infix_extend_left _ _ _ (ih hmem)

theorem startsFull_sub {p : Str} (h : startsFull p = true) : S "full" <:+: p := by
  unfold startsFull startsWithStr at h
  have hpre : S "full=" <+: p := of_decide_eq_true h
  have h4 : S "full" <+: S "full=" := ⟨S "=", rfl⟩
  obtain ⟨t, rfl⟩ := h4.trans hpre
  exact ⟨[], t, by simp⟩

theorem startsTea_sub {p : Str} (h : startsTea p = true) :
    S "table_exists_action" <:+: p := by
  unfold startsTea startsWithStr at h
  have hpre : S "table_exists_action=" <+: p := of_decide_eq_true h
  have h4 : S "table_exists_action" <+: S "table_exists_action=" := ⟨S "=", rfl⟩
  obtain ⟨t, rfl⟩ := h4.trans hpre
  exact ⟨[], t, by simp⟩

theorem countP_startsFull_zero (ps : List Str)
    (h : occursIn (S "full") (joinSp ps) = false) :
    ps.countP startsFull = 0 := by
  apply List.countP_eq_zero.mpr
  intro p hp hsf
  have hinf : S "full" <:+: joinSp ps :=
    (startsFull_sub hsf).trans (mem_infix_joinSp p ps hp)
  unfold occursIn at h
  rw [decide_eq_false_iff_not] at h
  exact h hinf

theorem countP_startsTea_zero (ps : List Str)
    (h : occursIn (S "table_exists_action") (joinSp ps) = false) :
    ps.countP startsTea = 0 := by
  apply List.countP_eq_zero.mpr
  intro p hp hst
  have hinf : S "table_exists_action" <:+: joinSp ps :=
    (startsTea_sub hst).trans (mem_infix_joinSp p ps hp)
  unfold occursIn at h
  rw [decide_eq_false_iff_not] at h
  exact h hinf

theorem startsFull_cons (c : Char) (h : c ≠ 'f') (t : Str) : startsFull (c :: t) = false := by
  unfold startsFull startsWithStr
  apply decide_eq_false
  intro hpre
  obtain ⟨r, hr⟩ := hpre
  rw [show S "full=" = 'f' :: S "ull=" from rfl, List.cons_append] at hr
  injection hr with h1 _
  exact h h1.symm

theorem startsTea_cons (c : Char) (h : c ≠ 't') (t : Str) : startsTea (c :: t) = false := by
  unfold startsTea startsWithStr
  apply decide_eq_false
  intro hpre
  obtain ⟨r, hr⟩ := hpre
  rw [show S "table_exists_action=" = 't' :: S "able_exists_action=" from rfl,
    List.cons_append] at hr
  injection hr with h1 _
  exact h h1.symm

theorem sf_dir (d : Str) : startsFull (S "directory=" ++ d) = false :=
  startsFull_cons 'd' (by decide) _

theorem sf_dump (d : Str) : startsFull (S "dumpfile=" ++ d) = false :=
  startsFull_cons 'd' (by decide) _

theorem sf_log (d : Str) : startsFull (S "logfile=" ++ d) = false :=
  startsFull_cons 'l' (by decide) _

theorem sf_teaflag : startsFull (S "table_exists_action=replace") = false := by decide

theorem sf_fullflag : startsFull (S "full=y") = true := by decide

theorem st_dir (d : Str) : startsTea (S "directory=" ++ d) = false :=
  startsTea_cons 'd' (by decide) _

theorem st_dump (d : Str) : startsTea (S "dumpfile=" ++ d) = false :=
  startsTea_cons 'd' (by decide) _

theorem st_log (d : Str) : startsTea (S "logfile=" ++ d) = false :=
  startsTea_cons 'l' (by decide) _

theorem st_fullflag : startsTea (S "full=y") = false := by decide

theorem st_teaflag : startsTea (S "table_exists_action=replace") = true := by decide

/-- Counterexample to claim C8 as stated: with caller parameter `afull=1` —
which contains the substring `"full"` but is not a `full=` flag — the builder
does not add the default `full=y`, although no equivalent flag was supplied,
so "adds the defaults iff no equivalent flag is present" fails. -/
theorem default_flag_iff_counterexample :
    ¬ ((S "full=y" ∈ DataPumpWorker.buildCommand DPOp.expdp dpCfgCE) ↔
      (∀ p ∈ dpCfgCE.additional_params, startsFull p = false)) := by decide

/-- Claim C8 (amended): the builder adds the default flags iff the
corresponding substring (`"full"`, resp. `"table_exists_action"`) does not
occur in the space-joined caller parameters — a substring test rather than an
equivalent-flag test — and consequently the options segment of the built
invocation contains exactly one `full=` option (resp. `table_exists_action=`
option on import) whenever the default is added, so the builder itself never
introduces a duplicate of these options. -/
theorem default_flags_substring_amended (op : DPOp) (cfg : DPConfig) :
    ((DataPumpWorker.buildCommand op cfg).drop 2).countP startsFull =
      (if occursIn (S "full") (joinSp cfg.additional_params) = true then
        cfg.additional_params.countP startsFull
      else 1) ∧
    ((DataPumpWorker.buildCommand op cfg).drop 2).countP startsTea =
      (if op = DPOp.impdp ∧
          occursIn (S "table_exists_action") (joinSp cfg.additional_params) = false then 1
      else cfg.additional_params.countP startsTea) := by
  cases op with
  | expdp =>
    by_cases hf : occursIn (S "full") (joinSp cfg.additional_params) = true
    · constructor
      · simp [DataPumpWorker.buildCommand, hf, List.countP_cons, List.countP_append,
          List.append_assoc, sf_dir, sf_dump, sf_log]
      · simp [DataPumpWorker.buildCommand, hf, List.countP_cons, List.countP_append,
          List.append_assoc, st_dir, st_dump, st_log]
    · have hff := bool_eq_false hf
      constructor
      · simp [DataPumpWorker.buildCommand, hf, List.countP_cons, List.countP_append,
          List.append_assoc, sf_dir, sf_dump, sf_log, sf_fullflag,
          countP_startsFull_zero _ hff]
      · simp [DataPumpWorker.buildCommand, hf, List.countP_cons, List.countP_append,
          List.append_assoc, st_dir, st_dump, st_log, st_fullflag]
  | impdp =>
    by_cases hf : occursIn (S "full") (joinSp cfg.additional_params) = true <;>
      by_cases ht : occursIn (S "table_exists_action") (joinSp cfg.additional_params) = true
    · constructor
      · simp [DataPumpWorker.buildCommand, hf, ht, List.countP_cons, List.countP_append,
          List.append_assoc, sf_dir, sf_dump, sf_log]
      · simp [DataPumpWorker.buildCommand, hf, ht, List.countP_cons, List.countP_append,
          List.append_assoc, st_dir, st_dump, st_log]
    · have htf := bool_eq_false ht
      constructor
      · simp [DataPumpWorker.buildCommand, hf, ht, List.countP_cons, List.countP_append,
          List.append_assoc, sf_dir, sf_dump, sf_log, sf_teaflag]
      · simp [DataPumpWorker.buildCommand, hf, ht, htf, List.countP_cons,
          List.countP_append, List.append_assoc, st_dir, st_dump, st_log, st_teaflag,
          countP_startsTea_zero _ htf]
    · have hff := bool_eq_false hf
      constructor
      · simp [DataPumpWorker.buildCommand, hf, ht, List.countP_cons, List.countP_append,
          List.append_assoc, sf_dir, sf_dump, sf_log, sf_fullflag,
          countP_startsFull_zero _ hff]
      · simp [DataPumpWorker.buildCommand, hf, ht, List.countP_cons, List.countP_append,
          List.append_assoc, st_dir, st_dump, st_log, st_fullflag]
    · have hff := bool_eq_false hf
      have htf := bool_eq_false ht
      constructor
      · simp [DataPumpWorker.buildCommand, hf, ht, List.countP_cons, List.countP_append,
          List.append_assoc, sf_dir, sf_dump, sf_log, sf_fullflag, sf_teaflag,
          countP_startsFull_zero _ hff]
      · simp [DataPumpWorker.buildCommand, hf, ht, htf, List.countP_cons,
          List.countP_append, List.append_assoc, st_dir, st_dump, st_log, st_fullflag,
          st_teaflag, countP_startsTea_zero _ htf]
